import Mathlib

/-!
Verification of the batch runner in src/Jars/script.py.

The script is seven lines of Python: it reads a mode string from the command
line, then for each of seven hardcoded problem-instance identifiers it calls
os.system with a shell command built by string concatenation, redirecting the
invoked tool's output into a per-mode results path.  The embedding below
models the command construction as Lean string concatenation, the command-line
vector sys.argv as a list of strings, and the operating-system environment as
a function assigning an exit status to every command handed to os.system.  A
run is the ordered list of side effects the script issues together with its
own termination result.
-/

namespace BatchRunner

/-- Hardcoded list of the seven problem-instance identifiers, in source order
(line 4 of script.py). -/
def instances : List String := ["020", "040", "060", "080", "100", "200", "400"]

/-- Shell command built for a given mode and instance identifier on line 8 of
script.py: the Python expression
"java -jar " + mode + ".jar " + instance + ">results/" + mode + "/" + instance,
with concatenation associated to the left exactly as in Python. -/
def command (mode inst : String) : String :=
  "java -jar " ++ mode ++ ".jar " ++ inst ++ ">results/" ++ mode ++ "/" ++ inst

/-- Output-redirection target as constructed on line 8: the characters the
program appends after the single redirection operator it writes are
"results/" + mode + "/" + instance. -/
def redirTarget (mode inst : String) : String :=
  "results/" ++ mode ++ "/" ++ inst

/-- Everything after the first occurrence of the redirection character in a
string: how a left-to-right scan of the single command string handed to the
shell locates the redirection target. -/
def afterGt (s : String) : String :=
  ⟨(s.data.dropWhile (fun c => c != '>')).drop 1⟩

/-- One observable side effect of the runner process.  Effect.system records a
call of os.system with the command string it was given and the exit status the
environment returned for it (the script reads nothing from that status);
Effect.mkdir is a directory-creation request, which the runner could have
issued through the imported os module but never does. -/
inductive Effect where
  | system (cmd : String) (status : Int)
  | mkdir (path : String)
deriving DecidableEq

/-- Result of one run of the script: the ordered list of side effects it
issued and either normal completion or the uncaught Python exception that
ended it. -/
structure Outcome where
  effects : List Effect
  result : Except String Unit

/-- The whole script as a function of the environment (the exit status the
shell reports for each command passed to os.system) and of sys.argv.  Line 5
reads sys.argv at index 1, raising IndexError when no such element exists;
lines 7-8 then call os.system once per entry of instances, in listed order,
discarding every returned status. -/
def script (env : String → Int) (argv : List String) : Outcome :=
  match argv[1]? with
  | none => ⟨[], .error "IndexError: list index out of range"⟩
  | some mode =>
      ⟨instances.map (fun inst => .system (command mode inst) (env (command mode inst))), .ok ()⟩

/-- Exit status of the runner process itself: 0 on normal completion, 1 when
an uncaught exception ends the Python interpreter. -/
def exitCode (o : Outcome) : Nat :=
  match o.result with
  | .ok _ => 0
  | .error _ => 1

/-- Command strings passed to os.system during a run, in order. -/
def systemCalls (o : Outcome) : List String :=
  o.effects.filterMap fun e =>
    match e with
    | .system cmd _ => some cmd
    | .mkdir _ => none

/-- Start and termination events of the child processes launched by os.system.
os.system starts a shell for its command and blocks until that shell exits, so
each call contributes a start event immediately followed by the matching
termination event before control returns to the loop. -/
inductive Event where
  | start (cmd : String)
  | finish (cmd : String) (status : Int)
deriving DecidableEq

/-- Child-process event trace of the loop on lines 7-8 for a given mode: the
events of the seven os.system calls in program order. -/
def trace (env : String → Int) (mode : String) : List Event :=
  instances.flatMap fun inst =>
    [.start (command mode inst), .finish (command mode inst) (env (command mode inst))]

/-- Character data of a constructed command, as the concatenation of its
literal and variable pieces. -/
lemma command_data (mode inst : String) :
    (command mode inst).data =
      "java -jar ".data ++ mode.data ++ ".jar ".data ++ inst.data ++
        ">results/".data ++ mode.data ++ "/".data ++ inst.data := by
  simp only [command, String.data_append]

/-- For a fixed mode, distinct instance identifiers yield distinct commands:
the identifier is recoverable from the command string. -/
lemma command_injective (mode : String) : Function.Injective (command mode) := by
  intro i j h
  have hd := congrArg String.data h
  rw [command_data, command_data] at hd
  have hlen := congrArg List.length hd
  simp only [List.length_append] at hlen
  have hij := List.append_inj hd (by simp only [List.length_append]; omega)
  exact String.ext hij.2

/-- With the first command-line argument present, the issued shell commands
are exactly the commands for the listed instances, in order. -/
lemma systemCalls_script (env : String → Int) (argv : List String) (mode : String)
    (h : argv[1]? = some mode) :
    systemCalls (script env argv) = instances.map (command mode) := by
  have hs : script env argv =
      ⟨instances.map (fun inst => .system (command mode inst) (env (command mode inst))),
        .ok ()⟩ := by
    simp [script, h]
  rw [hs]
  rfl

/-- Claim C1: for every mode string, the runner issues exactly one os.system
invocation per instance identifier, exactly seven in total, in the fixed order
020, 040, 060, 080, 100, 200, 400, iterating the hardcoded list exactly
once. -/
theorem c1_one_invocation_per_identifier
    (env : String → Int) (argv : List String) (mode : String)
    (h : argv[1]? = some mode) :
    systemCalls (script env argv) = instances.map (command mode) ∧
    (systemCalls (script env argv)).length = 7 ∧
    (∀ inst ∈ instances, (systemCalls (script env argv)).count (command mode inst) = 1) ∧
    instances = ["020", "040", "060", "080", "100", "200", "400"] := by
  have hs := systemCalls_script env argv mode h
  refine ⟨hs, by rw [hs]; simp [instances], ?_, rfl⟩
  intro inst hi
  rw [hs, List.count_map_of_injective _ _ (command_injective mode)]
  fin_cases hi <;> decide

/-- Witness for C1 at a concrete command line. -/
theorem c1_one_invocation_per_identifier_witness :
    systemCalls (script (fun _ => 0) ["script.py", "base"]) = instances.map (command "base") ∧
    (systemCalls (script (fun _ => 0) ["script.py", "base"])).length = 7 ∧
    (∀ inst ∈ instances,
      (systemCalls (script (fun _ => 0) ["script.py", "base"])).count (command "base" inst) = 1) ∧
    instances = ["020", "040", "060", "080", "100", "200", "400"] :=
  c1_one_invocation_per_identifier (fun _ => 0) ["script.py", "base"] "base" rfl

/-- Claim C2: for every mode and every instance identifier in the fixed list,
the constructed shell command is the concatenation of the fixed launcher text
"java -jar ", the mode, the fixed middle text ".jar ", and the identifier as
the sole argument, followed by the output-redirection text. -/
theorem c2_command_concatenation (mode inst : String) (h : inst ∈ instances) :
    command mode inst =
      "java -jar " ++ mode ++ ".jar " ++ inst ++ (">" ++ redirTarget mode inst) := by
  have h1 : (">results/" : String) = ">" ++ "results/" := rfl
  simp only [command, redirTarget, h1, String.append_assoc]

/-- Witness for C2 at a concrete mode and instance. -/
theorem c2_command_concatenation_witness :
    command "base" "020" =
      "java -jar " ++ "base" ++ ".jar " ++ "020" ++ (">" ++ redirTarget "base" "020") :=
  c2_command_concatenation "base" "020" (by decide)

/-- Claim C5: started without a first command-line argument, the script fails
at once with an index-out-of-range error, before any os.system call: the
effect list is empty and the interpreter exits abnormally. -/
theorem c5_missing_argument (env : String → Int) (argv : List String)
    (h : argv[1]? = none) :
    script env argv = ⟨[], .error "IndexError: list index out of range"⟩ ∧
    systemCalls (script env argv) = [] ∧
    exitCode (script env argv) = 1 := by
  have hs : script env argv = ⟨[], .error "IndexError: list index out of range"⟩ := by
    simp [script, h]
  exact ⟨hs, by rw [hs]; rfl, by rw [hs]; rfl⟩

/-- Witness for C5: an argument vector holding only the program name. -/
theorem c5_missing_argument_witness :
    script (fun _ => 0) ["script.py"] = ⟨[], .error "IndexError: list index out of range"⟩ ∧
    systemCalls (script (fun _ => 0) ["script.py"]) = [] ∧
    exitCode (script (fun _ => 0) ["script.py"]) = 1 :=
  c5_missing_argument (fun _ => 0) ["script.py"] rfl

/-- Dropping characters up to the first occurrence of the redirection
character skips exactly a prefix known to be free of it. -/
lemma dropWhile_to_gt (r : List Char) (l : List Char) (hl : ∀ c ∈ l, c ≠ '>') :
    (l ++ '>' :: r).dropWhile (fun c => c != '>') = '>' :: r := by
  induction l with
  | nil => simp [List.dropWhile_cons]
  | cons a as ih =>
      have ha : a ≠ '>' := hl a (by simp)
      have hrec := ih (fun c hc => hl c (by simp [hc]))
      simp [List.dropWhile_cons, ha, hrec]

/-- No character of the fixed launcher text, of the middle text, or of any of
the seven instance identifiers is the redirection character. -/
lemma fixed_pieces_gt_free (inst : String) (h : inst ∈ instances) :
    (∀ c ∈ "java -jar ".data, c ≠ '>') ∧ (∀ c ∈ ".jar ".data, c ≠ '>') ∧
      ∀ c ∈ inst.data, c ≠ '>' := by
  refine ⟨by decide, by decide, ?_⟩
  fin_cases h <;> decide

/-- A left-to-right scan of the constructed command finds the redirection
target results/mode/instance right after the redirection character, for every
mode string not itself containing that character. -/
lemma afterGt_command (mode inst : String) (hm : ∀ c ∈ mode.data, c ≠ '>')
    (h : inst ∈ instances) :
    afterGt (command mode inst) = "results/" ++ mode ++ "/" ++ inst := by
  obtain ⟨hA, hB, hI⟩ := fixed_pieces_gt_free inst h
  apply String.ext
  show ((command mode inst).data.dropWhile (fun c => c != '>')).drop 1 = _
  have hsplit : (command mode inst).data =
      ("java -jar ".data ++ mode.data ++ ".jar ".data ++ inst.data) ++
        '>' :: ("results/".data ++ mode.data ++ "/".data ++ inst.data) := by
    rw [command_data]
    have hgt : (">results/" : String).data = '>' :: ("results/" : String).data := rfl
    rw [hgt]
    simp [List.append_assoc]
  rw [hsplit, dropWhile_to_gt]
  · simp [String.data_append, List.append_assoc]
  · intro c hc
    simp only [List.mem_append] at hc
    rcases hc with ((hc | hc) | hc) | hc
    · exact hA c hc
    · exact hm c hc
    · exact hB c hc
    · exact hI c hc

/-- Claim C3: for every mode and every listed instance identifier, the
invocation redirects output to exactly the concatenation
"results/" + mode + "/" + instance: that string is what the program writes
after the redirection operator, the command decomposes accordingly, and a scan
of the finished command recovers it whenever the mode itself is free of the
redirection character. -/
theorem c3_redirection_target (mode inst : String) (h : inst ∈ instances) :
    redirTarget mode inst = "results/" ++ mode ++ "/" ++ inst ∧
    command mode inst =
      ("java -jar " ++ mode ++ ".jar " ++ inst) ++ ">" ++ redirTarget mode inst ∧
    ((∀ c ∈ mode.data, c ≠ '>') →
      afterGt (command mode inst) = "results/" ++ mode ++ "/" ++ inst) := by
  refine ⟨rfl, ?_, fun hm => afterGt_command mode inst hm h⟩
  have h1 : (">results/" : String) = ">" ++ "results/" := rfl
  simp only [command, redirTarget, h1, String.append_assoc]

/-- Witness for C3 at a concrete mode and instance. -/
theorem c3_redirection_target_witness :
    redirTarget "base" "020" = "results/" ++ "base" ++ "/" ++ "020" ∧
    command "base" "020" =
      ("java -jar " ++ "base" ++ ".jar " ++ "020") ++ ">" ++ redirTarget "base" "020" ∧
    afterGt (command "base" "020") = "results/" ++ "base" ++ "/" ++ "020" := by
  obtain ⟨h1, h2, h3⟩ := c3_redirection_target "base" "020" (by decide)
  exact ⟨h1, h2, h3 (by decide)⟩

/-- Claim C4 as stated is false: there is no mode for which the constructed
redirection target deviates from the exact concatenation
"results/" + mode + "/" + instance.  The construction places a path separator
on both sides of the mode portion, so the target has the documented shape for
every mode, not only for modes that end in a particular way. -/
theorem c4_counterexample :
    ¬ ∃ mode : String, ∃ inst ∈ instances,
        redirTarget mode inst ≠ "results/" ++ mode ++ "/" ++ inst := by
  rintro ⟨mode, inst, -, hne⟩
  exact hne rfl

/-- Claim C4, amended: the redirection target is built with a path separator
on both sides of the mode and equals results/mode/instance for every mode; the
character actually absent from the construction is a space between the
instance argument and the redirection operator, which are glued together. -/
theorem c4_no_space_before_redirection (mode inst : String) (h : inst ∈ instances) :
    redirTarget mode inst = "results/" ++ mode ++ "/" ++ inst ∧
    command mode inst =
      ("java -jar " ++ mode ++ ".jar ") ++ inst ++ (">" ++ redirTarget mode inst) := by
  refine ⟨rfl, ?_⟩
  have h1 : (">results/" : String) = ">" ++ "results/" := rfl
  simp only [command, redirTarget, h1, String.append_assoc]

/-- Witness for the amended C4 at a concrete mode and instance. -/
theorem c4_no_space_before_redirection_witness :
    redirTarget "base" "020" = "results/" ++ "base" ++ "/" ++ "020" ∧
    command "base" "020" =
      ("java -jar " ++ "base" ++ ".jar ") ++ "020" ++ (">" ++ redirTarget "base" "020") :=
  c4_no_space_before_redirection "base" "020" (by decide)

/-- Claim C6: exit statuses of the invoked tools are never inspected and never
abort the batch: whatever statuses the environment returns, the issued command
sequence is the full fixed one, and in particular a nonzero status on
instance 100 still leaves the commands for 200 and 400 at positions 5 and 6. -/
theorem c6_failures_do_not_abort
    (env envAlt : String → Int) (argv : List String) (mode : String)
    (h : argv[1]? = some mode) (hfail : env (command mode "100") ≠ 0) :
    systemCalls (script env argv) = instances.map (command mode) ∧
    (systemCalls (script env argv))[5]? = some (command mode "200") ∧
    (systemCalls (script env argv))[6]? = some (command mode "400") ∧
    systemCalls (script env argv) = systemCalls (script envAlt argv) := by
  have hs := systemCalls_script env argv mode h
  have hs' := systemCalls_script envAlt argv mode h
  refine ⟨hs, ?_, ?_, hs.trans hs'.symm⟩
  · rw [hs]; rfl
  · rw [hs]; rfl

/-- Witness for C6: the environment reports failure on instance 100, and the
commands for 200 and 400 are issued nonetheless. -/
theorem c6_failures_do_not_abort_witness :
    systemCalls (script (fun _ => 1) ["script.py", "base"]) = instances.map (command "base") ∧
    (systemCalls (script (fun _ => 1) ["script.py", "base"]))[5]? = some (command "base" "200") ∧
    (systemCalls (script (fun _ => 1) ["script.py", "base"]))[6]? = some (command "base" "400") ∧
    systemCalls (script (fun _ => 1) ["script.py", "base"]) =
      systemCalls (script (fun _ => 0) ["script.py", "base"]) :=
  c6_failures_do_not_abort (fun _ => 1) (fun _ => 0) ["script.py", "base"] "base" rfl
    (by decide)

/-- Claim C7: execution is strictly sequential and blocking.  The child-process
event trace is exactly start and termination of instance 020, then start and
termination of 040, and so on through 400; consequently, for every pair of
consecutive instances, the termination event of the earlier one occupies the
trace position immediately before the start event of the later one. -/
theorem c7_sequential_blocking (env : String → Int) (mode : String) :
    trace env mode =
      [.start (command mode "020"), .finish (command mode "020") (env (command mode "020")),
       .start (command mode "040"), .finish (command mode "040") (env (command mode "040")),
       .start (command mode "060"), .finish (command mode "060") (env (command mode "060")),
       .start (command mode "080"), .finish (command mode "080") (env (command mode "080")),
       .start (command mode "100"), .finish (command mode "100") (env (command mode "100")),
       .start (command mode "200"), .finish (command mode "200") (env (command mode "200")),
       .start (command mode "400"), .finish (command mode "400") (env (command mode "400"))] ∧
    ∀ k, k + 1 < instances.length →
      (trace env mode)[2 * k + 1]? =
        some (.finish (command mode (instances.getD k ""))
          (env (command mode (instances.getD k "")))) ∧
      (trace env mode)[2 * k + 2]? =
        some (.start (command mode (instances.getD (k + 1) ""))) := by
  refine ⟨rfl, ?_⟩
  intro k hk
  have hk6 : k < 6 := by simp [instances] at hk; omega
  interval_cases k <;> exact ⟨rfl, rfl⟩

/-- Witness for C7 at the first consecutive pair of a concrete run. -/
theorem c7_sequential_blocking_witness :
    (trace (fun _ => 0) "base")[1]? =
      some (.finish (command "base" (instances.getD 0 "")) 0) ∧
    (trace (fun _ => 0) "base")[2]? =
      some (.start (command "base" (instances.getD 1 ""))) :=
  (c7_sequential_blocking (fun _ => 0) "base").2 0 (by decide)

/-- Claim C8: the runner never creates the output directory: for every mode,
its effects are exactly the seven shell invocations, and no directory-creation
effect occurs among them. -/
theorem c8_no_directory_creation
    (env : String → Int) (argv : List String) (mode : String)
    (h : argv[1]? = some mode) :
    (script env argv).effects =
      instances.map (fun inst => Effect.system (command mode inst) (env (command mode inst))) ∧
    ∀ p, Effect.mkdir p ∉ (script env argv).effects := by
  have he : (script env argv).effects =
      instances.map (fun inst => Effect.system (command mode inst) (env (command mode inst))) := by
    simp [script, h]
  refine ⟨he, fun p hp => ?_⟩
  rw [he] at hp
  simp [List.mem_map] at hp

/-- Witness for C8 at a concrete command line. -/
theorem c8_no_directory_creation_witness :
    (script (fun _ => 0) ["script.py", "base"]).effects =
      instances.map (fun inst => Effect.system (command "base" inst) 0) ∧
    ∀ p, Effect.mkdir p ∉ (script (fun _ => 0) ["script.py", "base"]).effects :=
  c8_no_directory_creation (fun _ => 0) ["script.py", "base"] "base" rfl

/-- Claim C9: the issued command sequence is a pure function of the element at
index 1 of sys.argv alone: two runs agreeing there issue identical command
sequences whatever their environments, and in particular all arguments beyond
index 1 are ignored. -/
theorem c9_commands_pure_in_first_argument
    (env envAlt : String → Int) (a b : List String) (h : a[1]? = b[1]?) :
    systemCalls (script env a) = systemCalls (script envAlt b) ∧
    ∀ x y m rest restAlt : _,
      systemCalls (script env (x :: m :: rest)) =
        systemCalls (script envAlt (y :: m :: restAlt)) := by
  constructor
  · rcases ha : a[1]? with _ | m
    · have hb : b[1]? = none := by rw [← h, ha]
      simp [script, ha, hb, systemCalls]
    · have hb : b[1]? = some m := by rw [← h, ha]
      rw [systemCalls_script env a m ha, systemCalls_script envAlt b m hb]
  · intro x y m rest restAlt
    rw [systemCalls_script env (x :: m :: rest) m (by simp),
      systemCalls_script envAlt (y :: m :: restAlt) m (by simp)]

/-- Witness for C9: same mode, different program names, different extra
arguments, different environments. -/
theorem c9_commands_pure_in_first_argument_witness :
    systemCalls (script (fun _ => 0) ["script.py", "base"]) =
      systemCalls (script (fun _ => 1) ["other.py", "base", "extra"]) ∧
    ∀ x y m rest restAlt : _,
      systemCalls (script (fun _ => (0 : Int)) (x :: m :: rest)) =
        systemCalls (script (fun _ => (1 : Int)) (y :: m :: restAlt)) :=
  c9_commands_pure_in_first_argument (fun _ => 0) (fun _ => 1)
    ["script.py", "base"] ["other.py", "base", "extra"] rfl

/-- Claim C10: whenever the first command-line argument is present, the script
runs to completion and the interpreter exits with status 0, whatever exit
statuses the seven child processes return. -/
theorem c10_exits_zero_regardless_of_children
    (env : String → Int) (argv : List String) (mode : String)
    (h : argv[1]? = some mode) :
    (script env argv).result = .ok () ∧ exitCode (script env argv) = 0 ∧
    ∀ envAlt : String → Int, exitCode (script envAlt argv) = 0 := by
  refine ⟨?_, ?_, fun envAlt => ?_⟩ <;> simp [script, h, exitCode]

/-- Witness for C10 at a concrete command line with failing children. -/
theorem c10_exits_zero_regardless_of_children_witness :
    (script (fun _ => 127) ["script.py", "base"]).result = .ok () ∧
    exitCode (script (fun _ => 127) ["script.py", "base"]) = 0 ∧
    ∀ envAlt : String → Int, exitCode (script envAlt ["script.py", "base"]) = 0 :=
  c10_exits_zero_regardless_of_children (fun _ => 127) ["script.py", "base"] "base" rfl

end BatchRunner
